import Mathlib

/-
Verification of the pattern-matching and command-generation engine of the
windows-cmd-nlp repository (src/cmd_nlp.py).

The embedding mirrors the source:
  * Re and its matcher embed the Python regular expressions used by the rule
    table, with re.match semantics: anchored at the start of the input,
    case-insensitive, a prefix match is sufficient, backtracking is greedy
    (longest alternative first for dotplus, left alternative first for alt,
    present branch first for opt).
  * CommandPattern embeds the class CommandPattern (pattern, generators,
    description, safe, category); get_command embeds
    CommandPattern.get_command including its treatment of a raising
    generator and of a falsy result.
  * parse and parse_all embed CMDNLPParser.parse and CMDNLPParser.parse_all.
  * execute, log_command and run_command embed CMDNLPParser.execute,
    CMDNLPParser.log_command and CMDNLPParser._run_command; the subprocess
    outcome is an explicit input (RunResult) and printing is dropped.
  * loadCustomEntry and substituteGroups embed the per-entry body of
    CMDNLPParser._load_custom_patterns and CMDNLPParser._substitute_groups.
Python string helpers str.strip, str.lower and str.title are embedded as
pyStrip, pyLower and pyTitle (faithful on the ASCII inputs that occur here).
-/

/-- The two concrete shell targets (class ShellType). The value auto is
resolved to one of these during construction and never reaches the matching
engine, so it is not part of the embedding. -/
inductive Shell where
  | cmd
  | powershell

/-- Result of calling one generator lambda: either a returned value or a
raised exception (the except branch of get_command). -/
inductive GenResult where
  | ok (s : String)
  | exn

/-- A generator lambda: captured groups (group 1 first) to a result. -/
def Generator : Type := List String → GenResult

/-- Embedding of the regular expressions occurring in the rule table:
case-insensitive literals, the greedy group (.+) as dotplus, alternation,
optional pieces written in the source as parenthesized question marks, and
the end anchor written as a dollar sign. -/
inductive Re where
  | lit (s : String)
  | dotplus
  | seq (a b : Re)
  | alt (a b : Re)
  | opt (a : Re)
  | grp (a : Re)
  | eos

/-- Right-nested sequencing of a list of regex pieces. -/
def Re.cat : List Re → Re
  | [] => Re.lit ""
  | [r] => r
  | r :: rs => Re.seq r (Re.cat rs)

/-- Case-insensitive literal match (re.IGNORECASE): consume the literal from
the front of the input, comparing characters lowercased. -/
def litMatch : List Char → List Char → Option (List Char)
  | [], s => some s
  | _ :: _, [] => none
  | d :: ds, c :: cs => if c.toLower == d.toLower then litMatch ds cs else none

/-- Greedy matching of (.+): consume one or more characters other than the
newline character, trying the longest consumption first, exactly the
backtracking order of the Python engine. -/
def dotplusK {α : Type} : List Char → (List Char → Option α) → Option α
  | [], _ => none
  | c :: rest, k =>
    if c == Char.ofNat 10 then none
    else
      match dotplusK rest k with
      | some r => some r
      | none => k rest

/-- Backtracking matcher in continuation-passing style. The continuation
receives the unconsumed input and the captured groups collected so far; a
capturing group appends the text it consumed (the regexes in the table have
no nested capturing groups, so completion order is group-number order).
The end anchor also accepts a single trailing newline, as the Python dollar
anchor does. -/
def matchK : Re → List Char → List String →
    (List Char → List String → Option (List String)) → Option (List String)
  | Re.lit l, s, gs, k =>
    match litMatch l.toList s with
    | some s2 => k s2 gs
    | none => none
  | Re.dotplus, s, gs, k => dotplusK s (fun s2 => k s2 gs)
  | Re.seq a b, s, gs, k => matchK a s gs (fun s2 gs2 => matchK b s2 gs2 k)
  | Re.alt a b, s, gs, k =>
    match matchK a s gs k with
    | some r => some r
    | none => matchK b s gs k
  | Re.opt a, s, gs, k =>
    match matchK a s gs k with
    | some r => some r
    | none => k s gs
  | Re.grp a, s, gs, k =>
    matchK a s gs (fun s2 gs2 => k s2 (gs2 ++ [String.mk (s.take (s.length - s2.length))]))
  | Re.eos, s, gs, k =>
    if s.isEmpty || s == [Char.ofNat 10] then k s gs else none

/-- Embedding of pattern.match(text) = re.match: anchored at the start, the
match need not consume the whole input; on success the captured groups are
returned. -/
def reMatch (r : Re) (text : String) : Option (List String) :=
  matchK r text.toList [] (fun _ gs => some gs)

/-- Embedding of str.strip(): drop whitespace from both ends. -/
def pyStrip (s : String) : String :=
  String.mk (((s.toList.dropWhile Char.isWhitespace).reverse.dropWhile Char.isWhitespace).reverse)

/-- Embedding of str.lower(). -/
def pyLower (s : String) : String :=
  String.mk (s.toList.map Char.toLower)

/-- Helper for pyTitle: the Boolean records whether the previous character
was a letter. -/
def pyTitleAux : Bool → List Char → List Char
  | _, [] => []
  | prevAlpha, c :: cs =>
    (if c.isAlpha then (if prevAlpha then c.toLower else c.toUpper) else c)
      :: pyTitleAux c.isAlpha cs

/-- Embedding of str.title(): uppercase each letter that follows a
non-letter, lowercase the other letters. -/
def pyTitle (s : String) : String :=
  String.mk (pyTitleAux false s.toList)

/-- Embedding of the class CommandPattern (src/cmd_nlp.py lines 33-65). The
source field pattern (a compiled regex) is the field regex here; every
construction site in the source supplies a generator for both shells, so the
legacy single-callable branch of the constructor is not needed. -/
structure CommandPattern where
  regex : Re
  generators : Shell → Option Generator
  description : String
  safe : Bool
  category : String

/-- Embedding of CommandPattern.get_command: a missing generator gives none,
a raising generator gives none, and a falsy (empty) result gives none. -/
def CommandPattern.get_command (p : CommandPattern) (shell : Shell) (m : List String) :
    Option String :=
  match p.generators shell with
  | some g =>
    match g m with
    | GenResult.ok s => if s = "" then none else some s
    | GenResult.exn => none
  | none => none

/-- Generators that ignore the captures and return fixed strings, one per
shell (the constant lambdas of the source). -/
def bothShells (c p : Generator) : Shell → Option Generator
  | Shell.cmd => some c
  | Shell.powershell => some p

/-- A generator returning a constant command string. -/
def genConst (s : String) : Generator := fun _ => GenResult.ok s

/-- A generator reading group 1; a missing group raises, as m.group(1)
does. -/
def gen1 (f : String → String) : Generator := fun m =>
  match m.get? 0 with
  | some g => GenResult.ok (f g)
  | none => GenResult.exn

/-- A generator reading group 2. -/
def gen2 (f : String → String) : Generator := fun m =>
  match m.get? 1 with
  | some g => GenResult.ok (f g)
  | none => GenResult.exn

/-- A generator reading groups 1 and 2. -/
def gen12 (f : String → String → String) : Generator := fun m =>
  match m.get? 0, m.get? 1 with
  | some a, some b => GenResult.ok (f a b)
  | _, _ => GenResult.exn

/-- Rule for the regex "go to (.+)" (navigation). -/
def goToPattern : CommandPattern where
  regex := Re.seq (Re.lit "go to ") (Re.grp Re.dotplus)
  generators := bothShells
    (gen1 fun g => "cd " ++ pyTitle (pyStrip g))
    (gen1 fun g => "Set-Location -Path \x27" ++ pyStrip g ++ "\x27")
  description := "Change directory"
  safe := true
  category := "navigation"

/-- Rule for the regex "go back" (navigation). -/
def goBackPattern : CommandPattern where
  regex := Re.lit "go back"
  generators := bothShells (genConst "cd ..") (genConst "Set-Location ..")
  description := "Go to parent directory"
  safe := true
  category := "navigation"

/-- Rule for the regex "show (current directory|current path)" (navigation). -/
def showCurrentDirPattern : CommandPattern where
  regex := Re.seq (Re.lit "show ")
    (Re.grp (Re.alt (Re.lit "current directory") (Re.lit "current path")))
  generators := bothShells (genConst "cd") (genConst "Get-Location")
  description := "Show current directory"
  safe := true
  category := "navigation"

/-- Rule for the regex "where am i" (navigation). -/
def whereAmIPattern : CommandPattern where
  regex := Re.lit "where am i"
  generators := bothShells (genConst "cd") (genConst "Get-Location")
  description := "Show current directory"
  safe := true
  category := "navigation"

/-- Rule for the regex "list files (?:sorted|sort) by (size|name|date)"
(files); the generators look the lowercased group up in a table with a
default, as the source dictionary get does. -/
def listFilesSortedPattern : CommandPattern where
  regex := Re.cat [Re.lit "list files ", Re.alt (Re.lit "sorted") (Re.lit "sort"),
    Re.lit " by ", Re.grp (Re.alt (Re.lit "size") (Re.alt (Re.lit "name") (Re.lit "date")))]
  generators := bothShells
    (gen1 fun g =>
      let k := pyLower g
      if k = "size" then "dir /O-S"
      else if k = "name" then "dir /O-N"
      else if k = "date" then "dir /O-D"
      else "dir")
    (gen1 fun g =>
      let k := pyLower g
      if k = "size" then "Get-ChildItem | Sort-Object Length -Descending"
      else if k = "name" then "Get-ChildItem | Sort-Object Name"
      else if k = "date" then "Get-ChildItem | Sort-Object LastWriteTime -Descending"
      else "Get-ChildItem")
  description := "List files sorted"
  safe := true
  category := "files"

/-- Rule for the regex "list files" (files). -/
def listFilesPattern : CommandPattern where
  regex := Re.lit "list files"
  generators := bothShells (genConst "dir") (genConst "Get-ChildItem")
  description := "List files"
  safe := true
  category := "files"

/-- Rule for the regex "create (folder|directory) (.+)" (files). -/
def createDirectoryPattern : CommandPattern where
  regex := Re.cat [Re.lit "create ", Re.grp (Re.alt (Re.lit "folder") (Re.lit "directory")),
    Re.lit " ", Re.grp Re.dotplus]
  generators := bothShells
    (gen2 fun g => "mkdir " ++ pyStrip g)
    (gen2 fun g => "New-Item -ItemType Directory -Path \x27" ++ pyStrip g ++ "\x27")
  description := "Create directory"
  safe := true
  category := "files"

/-- Rule for the regex "delete (?:the )?file (.+)" (files, destructive). -/
def deleteFilePattern : CommandPattern where
  regex := Re.cat [Re.lit "delete ", Re.opt (Re.lit "the "), Re.lit "file ",
    Re.grp Re.dotplus]
  generators := bothShells
    (gen1 fun g => "del \"" ++ pyStrip g ++ "\"")
    (gen1 fun g => "Remove-Item -Path \x27" ++ pyStrip g ++ "\x27 -Force")
  description := "Delete file"
  safe := false
  category := "files"

/-- Rule for the regex "delete (?:the )?(folder|directory) (.+)" (files,
destructive). -/
def deleteFolderPattern : CommandPattern where
  regex := Re.cat [Re.lit "delete ", Re.opt (Re.lit "the "),
    Re.grp (Re.alt (Re.lit "folder") (Re.lit "directory")), Re.lit " ", Re.grp Re.dotplus]
  generators := bothShells
    (gen2 fun g => "rmdir /s /q \"" ++ pyStrip g ++ "\"")
    (gen2 fun g => "Remove-Item -Path \x27" ++ pyStrip g ++ "\x27 -Recurse -Force")
  description := "Delete directory"
  safe := false
  category := "files"

/-- Rule for the regex "copy (.+) (?:to|into) (.+)" (files). -/
def copyFilePattern : CommandPattern where
  regex := Re.cat [Re.lit "copy ", Re.grp Re.dotplus, Re.lit " ",
    Re.alt (Re.lit "to") (Re.lit "into"), Re.lit " ", Re.grp Re.dotplus]
  generators := bothShells
    (gen12 fun a b => "copy \"" ++ pyStrip a ++ "\" \"" ++ pyStrip b ++ "\"")
    (gen12 fun a b =>
      "Copy-Item -Path \x27" ++ pyStrip a ++ "\x27 -Destination \x27" ++ pyStrip b ++ "\x27")
  description := "Copy file"
  safe := true
  category := "files"

/-- Rule for the regex "move (.+) (?:to|into) (.+)" (files, destructive). -/
def moveFilePattern : CommandPattern where
  regex := Re.cat [Re.lit "move ", Re.grp Re.dotplus, Re.lit " ",
    Re.alt (Re.lit "to") (Re.lit "into"), Re.lit " ", Re.grp Re.dotplus]
  generators := bothShells
    (gen12 fun a b => "move \"" ++ pyStrip a ++ "\" \"" ++ pyStrip b ++ "\"")
    (gen12 fun a b =>
      "Move-Item -Path \x27" ++ pyStrip a ++ "\x27 -Destination \x27" ++ pyStrip b ++ "\x27")
  description := "Move file"
  safe := false
  category := "files"

/-- Rule for the regex "open (.+)" (system). -/
def openProgramPattern : CommandPattern where
  regex := Re.seq (Re.lit "open ") (Re.grp Re.dotplus)
  generators := bothShells
    (gen1 fun g => "start " ++ pyStrip g)
    (gen1 fun g => "Start-Process \x27" ++ pyStrip g ++ "\x27")
  description := "Open program"
  safe := true
  category := "system"

/-- Rule for the regex "clear|clean" (system). -/
def clearScreenPattern : CommandPattern where
  regex := Re.alt (Re.lit "clear") (Re.lit "clean")
  generators := bothShells (genConst "cls") (genConst "Clear-Host")
  description := "Clear screen"
  safe := true
  category := "system"

/-- Rule for the regex "show disk space" (system). -/
def showDiskSpacePattern : CommandPattern where
  regex := Re.lit "show disk space"
  generators := bothShells
    (genConst "wmic logicaldisk get size,freespace,caption")
    (genConst ("Get-PSDrive -PSProvider FileSystem | Select-Object Name, " ++
      "@\x7bN=\x27Used(GB)\x27;E=\x7b[math]::Round($_.Used/1GB,2)\x7d\x7d, " ++
      "@\x7bN=\x27Free(GB)\x27;E=\x7b[math]::Round($_.Free/1GB,2)\x7d\x7d"))
  description := "Show disk space"
  safe := true
  category := "system"

/-- Rule for the regex "show ip address" (system). -/
def showIpPattern : CommandPattern where
  regex := Re.lit "show ip address"
  generators := bothShells
    (genConst "ipconfig")
    (genConst ("Get-NetIPAddress -AddressFamily IPv4 | Where-Object " ++
      "\x7b$_.InterfaceAlias -notlike \x27*Loopback*\x27\x7d"))
  description := "Show IP address"
  safe := true
  category := "system"

/-- Rule for the regex "show my ip" (system). -/
def showMyIpPattern : CommandPattern where
  regex := Re.lit "show my ip"
  generators := bothShells
    (genConst "ipconfig")
    (genConst ("Get-NetIPAddress -AddressFamily IPv4 | Where-Object " ++
      "\x7b$_.InterfaceAlias -notlike \x27*Loopback*\x27\x7d"))
  description := "Show IP address"
  safe := true
  category := "system"

/-- Rule for the regex "show date" (system). -/
def showDatePattern : CommandPattern where
  regex := Re.lit "show date"
  generators := bothShells (genConst "date /t") (genConst "Get-Date -Format \x27yyyy-MM-dd\x27")
  description := "Show current date"
  safe := true
  category := "system"

/-- Rule for the regex "show time" (system). -/
def showTimePattern : CommandPattern where
  regex := Re.lit "show time"
  generators := bothShells (genConst "time /t") (genConst "Get-Date -Format \x27HH:mm:ss\x27")
  description := "Show current time"
  safe := true
  category := "system"

/-- Rule for the regex "find files (?:named|containing|with) (.+)" (search). -/
def findFilesPattern : CommandPattern where
  regex := Re.cat [Re.lit "find files ",
    Re.alt (Re.lit "named") (Re.alt (Re.lit "containing") (Re.lit "with")),
    Re.lit " ", Re.grp Re.dotplus]
  generators := bothShells
    (gen1 fun g => "dir /s /b | findstr /i \"" ++ pyStrip g ++ "\"")
    (gen1 fun g =>
      "Get-ChildItem -Recurse -Filter \x27*" ++ pyStrip g ++ "*\x27 | Select-Object FullName")
  description := "Find files by name"
  safe := true
  category := "search"

/-- Rule for the regex "find text (.+) (?:in|within) files" (search). -/
def findTextPattern : CommandPattern where
  regex := Re.cat [Re.lit "find text ", Re.grp Re.dotplus, Re.lit " ",
    Re.alt (Re.lit "in") (Re.lit "within"), Re.lit " files"]
  generators := bothShells
    (gen1 fun g => "findstr /s /i \"" ++ pyStrip g ++ "\" *.*")
    (gen1 fun g => "Get-ChildItem -Recurse -File | Select-String -Pattern \x27" ++
      pyStrip g ++ "\x27 | Select-Object Path, LineNumber, Line")
  description := "Find text in files"
  safe := true
  category := "search"

/-- Rule for the regex "show (?:running )?process(?:es)?" (process). -/
def showProcessesPattern : CommandPattern where
  regex := Re.cat [Re.lit "show ", Re.opt (Re.lit "running "), Re.lit "process",
    Re.opt (Re.lit "es")]
  generators := bothShells
    (genConst "tasklist")
    (genConst ("Get-Process | Select-Object Id, ProcessName, CPU, WorkingSet" ++
      " | Format-Table -AutoSize"))
  description := "List running processes"
  safe := true
  category := "process"

/-- Rule for the regex "kill (?:process )?(.+)" (process, destructive). -/
def killProcessPattern : CommandPattern where
  regex := Re.cat [Re.lit "kill ", Re.opt (Re.lit "process "), Re.grp Re.dotplus]
  generators := bothShells
    (gen1 fun g => "taskkill /F /IM \"" ++ pyStrip g ++ "\"")
    (gen1 fun g => "Stop-Process -Name \x27" ++ pyStrip g ++ "\x27 -Force")
  description := "Kill process"
  safe := false
  category := "process"

/-- Rule for the regex "set (?:variable )?(.+) (?:to|equal|=) (.+)"
(environment). -/
def setVariablePattern : CommandPattern where
  regex := Re.cat [Re.lit "set ", Re.opt (Re.lit "variable "), Re.grp Re.dotplus,
    Re.lit " ", Re.alt (Re.lit "to") (Re.alt (Re.lit "equal") (Re.lit "=")),
    Re.lit " ", Re.grp Re.dotplus]
  generators := bothShells
    (gen12 fun a b => "set " ++ pyStrip a ++ "=" ++ pyStrip b)
    (gen12 fun a b => "$env:" ++ pyStrip a ++ " = \x27" ++ pyStrip b ++ "\x27")
  description := "Set environment variable"
  safe := true
  category := "environment"

/-- Rule for the regex "show variable (.+)" (environment). -/
def showVariablePattern : CommandPattern where
  regex := Re.seq (Re.lit "show variable ") (Re.grp Re.dotplus)
  generators := bothShells
    (gen1 fun g => "echo %" ++ pyStrip g ++ "%")
    (gen1 fun g => "$env:" ++ pyStrip g)
  description := "Show environment variable"
  safe := true
  category := "environment"

/-- Rule for the regex "ping (.+)" (network). -/
def pingPattern : CommandPattern where
  regex := Re.seq (Re.lit "ping ") (Re.grp Re.dotplus)
  generators := bothShells
    (gen1 fun g => "ping " ++ pyStrip g)
    (gen1 fun g => "Test-Connection -ComputerName " ++ pyStrip g ++ " -Count 4")
  description := "Ping host"
  safe := true
  category := "network"

/-- Rule for the regex "trace route to (.+)" (network). -/
def traceRoutePattern : CommandPattern where
  regex := Re.seq (Re.lit "trace route to ") (Re.grp Re.dotplus)
  generators := bothShells
    (gen1 fun g => "tracert " ++ pyStrip g)
    (gen1 fun g => "Test-NetConnection -ComputerName " ++ pyStrip g ++ " -TraceRoute")
  description := "Trace route"
  safe := true
  category := "network"

/-- Rule for the regex "show hidden files" (properties). -/
def showHiddenFilesPattern : CommandPattern where
  regex := Re.lit "show hidden files"
  generators := bothShells
    (genConst "dir /ah")
    (genConst "Get-ChildItem -Hidden | Select-Object Name, Attributes")
  description := "List hidden files"
  safe := true
  category := "properties"

/-- Rule for the regex "show (?:file )?(?:attributes|props|properties) (.+)"
(properties). -/
def showAttributesPattern : CommandPattern where
  regex := Re.cat [Re.lit "show ", Re.opt (Re.lit "file "),
    Re.alt (Re.lit "attributes") (Re.alt (Re.lit "props") (Re.lit "properties")),
    Re.lit " ", Re.grp Re.dotplus]
  generators := bothShells
    (gen1 fun g => "attrib " ++ pyStrip g)
    (gen1 fun g => "Get-ItemProperty -Path \x27" ++ pyStrip g ++ "\x27 | Select-Object *")
  description := "Show file attributes"
  safe := true
  category := "properties"

/-- Rule for the regex "hide (?:file )?(.+)" (properties). -/
def hideFilePattern : CommandPattern where
  regex := Re.cat [Re.lit "hide ", Re.opt (Re.lit "file "), Re.grp Re.dotplus]
  generators := bothShells
    (gen1 fun g => "attrib +h " ++ pyStrip g)
    (gen1 fun g => "$file = Get-Item \x27" ++ pyStrip g ++ "\x27; $file.Attributes = " ++
      "$file.Attributes -bor [System.IO.FileAttributes]::Hidden")
  description := "Hide file"
  safe := true
  category := "properties"

/-- Rule for the regex "(?:show|read|display|cat) file (.+)" (text). -/
def showFileContentsPattern : CommandPattern where
  regex := Re.cat [
    Re.alt (Re.lit "show") (Re.alt (Re.lit "read") (Re.alt (Re.lit "display") (Re.lit "cat"))),
    Re.lit " file ", Re.grp Re.dotplus]
  generators := bothShells
    (gen1 fun g => "type " ++ pyStrip g)
    (gen1 fun g => "Get-Content -Path \x27" ++ pyStrip g ++ "\x27")
  description := "Display file contents"
  safe := true
  category := "text"

/-- Rule for the regex "(?:edit|open) (?:file )?(.+)" (text). -/
def editFilePattern : CommandPattern where
  regex := Re.cat [Re.alt (Re.lit "edit") (Re.lit "open"), Re.lit " ",
    Re.opt (Re.lit "file "), Re.grp Re.dotplus]
  generators := bothShells
    (gen1 fun g => "notepad " ++ pyStrip g)
    (gen1 fun g => "notepad.exe \x27" ++ pyStrip g ++ "\x27")
  description := "Edit file"
  safe := true
  category := "text"

/-- Alias rule for the fully anchored regex of ls (alias). -/
def lsAliasPattern : CommandPattern where
  regex := Re.seq (Re.lit "ls") Re.eos
  generators := bothShells (genConst "dir") (genConst "Get-ChildItem")
  description := "List files (alias)"
  safe := true
  category := "alias"

/-- Alias rule for the fully anchored regex of pwd (alias). -/
def pwdAliasPattern : CommandPattern where
  regex := Re.seq (Re.lit "pwd") Re.eos
  generators := bothShells (genConst "cd") (genConst "Get-Location")
  description := "Show directory (alias)"
  safe := true
  category := "alias"

/-- Alias rule for the fully anchored regex of mkdir followed by (.+)
(alias); the source generators use the raw group without stripping. -/
def mkdirAliasPattern : CommandPattern where
  regex := Re.cat [Re.lit "mkdir ", Re.grp Re.dotplus, Re.eos]
  generators := bothShells
    (gen1 fun g => "mkdir " ++ g)
    (gen1 fun g => "New-Item -ItemType Directory -Path \x27" ++ g ++ "\x27")
  description := "Make directory (alias)"
  safe := true
  category := "alias"

/-- Alias rule for the fully anchored regex of rm followed by (.+) (alias,
destructive); the source generators use the raw group without stripping. -/
def rmAliasPattern : CommandPattern where
  regex := Re.cat [Re.lit "rm ", Re.grp Re.dotplus, Re.eos]
  generators := bothShells
    (gen1 fun g => "del \"" ++ g ++ "\"")
    (gen1 fun g => "Remove-Item -Path \x27" ++ g ++ "\x27 -Force")
  description := "Remove file (alias)"
  safe := false
  category := "alias"

/-- Alias rule for the fully anchored regex of gci (alias). -/
def gciAliasPattern : CommandPattern where
  regex := Re.seq (Re.lit "gci") Re.eos
  generators := bothShells (genConst "dir") (genConst "Get-ChildItem")
  description := "Get-ChildItem alias"
  safe := true
  category := "alias"

/-- Alias rule for the fully anchored regex of gl (alias). -/
def glAliasPattern : CommandPattern where
  regex := Re.seq (Re.lit "gl") Re.eos
  generators := bothShells (genConst "cd") (genConst "Get-Location")
  description := "Get-Location alias"
  safe := true
  category := "alias"

/-- The built-in rule table, in the exact order of _setup_patterns:
navigation, files, system, search, process, environment, network,
properties, text, aliases. -/
def builtinPatterns : List CommandPattern :=
  [goToPattern, goBackPattern, showCurrentDirPattern, whereAmIPattern,
   listFilesSortedPattern, listFilesPattern, createDirectoryPattern,
   deleteFilePattern, deleteFolderPattern, copyFilePattern, moveFilePattern,
   openProgramPattern, clearScreenPattern, showDiskSpacePattern, showIpPattern,
   showMyIpPattern, showDatePattern, showTimePattern,
   findFilesPattern, findTextPattern,
   showProcessesPattern, killProcessPattern,
   setVariablePattern, showVariablePattern,
   pingPattern, traceRoutePattern,
   showHiddenFilesPattern, showAttributesPattern, hideFilePattern,
   showFileContentsPattern, editFilePattern,
   lsAliasPattern, pwdAliasPattern, mkdirAliasPattern, rmAliasPattern,
   gciAliasPattern, glAliasPattern]

/-- The scan loop of CMDNLPParser.parse over an already stripped input: the
first rule whose regex matches and whose generator yields a usable command
wins; a rule that matches but generates nothing is passed over. -/
def parseAux (sh : Shell) (text : String) : List CommandPattern → Option (String × CommandPattern)
  | [] => none
  | p :: ps =>
    match reMatch p.regex text with
    | none => parseAux sh text ps
    | some m =>
      match p.get_command sh m with
      | none => parseAux sh text ps
      | some c => some (c, p)

/-- Embedding of CMDNLPParser.parse (src/cmd_nlp.py lines 639-658): strip
the input, then scan the rule table in order; the pair of none values of the
source is the none of the Option here. -/
def parse (patterns : List CommandPattern) (shell_mode : Shell) (text : String) :
    Option (String × CommandPattern) :=
  parseAux shell_mode (pyStrip text) patterns

/-- The scan loop of CMDNLPParser.parse_all: it stops at the first rule
whose regex matches and then produces the per-shell results from that one
rule, never looking further down the table. -/
def parseAllAux (text : String) :
    List CommandPattern → Shell → Option (String × CommandPattern)
  | [] => fun _ => none
  | p :: ps =>
    match reMatch p.regex text with
    | none => parseAllAux text ps
    | some m => fun shell =>
      match p.get_command shell m with
      | some c => some (c, p)
      | none => none

/-- Embedding of CMDNLPParser.parse_all (src/cmd_nlp.py lines 660-682): the
returned dictionary keyed by shell is the returned function of the shell; a
shell whose command could not be generated is absent, that is, none. -/
def parse_all (patterns : List CommandPattern) (text : String) :
    Shell → Option (String × CommandPattern) :=
  parseAllAux (pyStrip text) patterns

/-- One line of the history log (src/cmd_nlp.py lines 687-696). The
timestamp field of the source, taken from the wall clock, is abstracted
away; the remaining fields are kept. -/
structure HistoryEntry where
  input : String
  command : String
  shell : Shell
  pattern_description : String
  category : String
  safe : Bool
  executed : Bool

/-- Embedding of CMDNLPParser.log_command: the entry it appends to the log
file. The source default of the shell argument resolves to the shell mode of
the parser, which callers here pass explicitly. -/
def log_command (input_text command : String) (pat : CommandPattern) (executed : Bool)
    (shell : Shell) : HistoryEntry :=
  { input := input_text
    command := command
    shell := shell
    pattern_description := pat.description
    category := pat.category
    safe := pat.safe
    executed := executed }

/-- Outcome of the subprocess invocation inside CMDNLPParser._run_command:
the process ran and exited with a code, the shell executable was absent
(FileNotFoundError), or some other exception was raised. -/
inductive RunResult where
  | completed (code : Int)
  | fileNotFound
  | otherError

/-- Embedding of CMDNLPParser._run_command (src/cmd_nlp.py lines 753-802):
exit code zero is success, a missing shell executable is reported as success
(the soft-success branch), any other exit code or exception is failure. -/
def run_command (r : RunResult) : Bool :=
  match r with
  | RunResult.completed code => code == 0
  | RunResult.fileNotFound => true
  | RunResult.otherError => false

/-- Embedding of CMDNLPParser.execute (src/cmd_nlp.py lines 707-751),
returning the pair of the returned Boolean and the list of history entries
written during the call. The confirmation answer read from the user and the
subprocess outcome are explicit inputs. Mirroring the source: a failed parse
writes nothing; a refused confirmation writes one entry and returns false; a
dry run writes one entry and returns true; the real execution path calls
_run_command and writes nothing. -/
def execute (patterns : List CommandPattern) (shell_mode : Shell) (dry_run : Bool)
    (text : String) (auto_confirm : Bool) (confirm_answer : String)
    (run_result : RunResult) : Bool × List HistoryEntry :=
  match parse patterns shell_mode text with
  | none => (false, [])
  | some (command, pat) =>
    if (!pat.safe && !auto_confirm) && (pyLower (pyStrip confirm_answer) != "y") then
      (false, [log_command text command pat false shell_mode])
    else if dry_run then
      (true, [log_command text command pat false shell_mode])
    else
      (run_command run_result, [])

/-- One entry of the patterns array of the configuration file, as consumed
by CMDNLPParser._load_custom_patterns. The regex string of the source is
carried here already in embedded form. -/
structure CustomEntry where
  pattern : Option Re
  command : Option String
  cmd_command : Option String
  ps_command : Option String
  description : Option String
  safe : Option Bool
  category : Option String

/-- Embedding of the Python expression a or b over optional strings: the
left value is kept when it is present and non-empty (truthy), otherwise the
right value is used. -/
def pyOrStr (a b : Option String) : Option String :=
  match a with
  | some s => if s = "" then b else some s
  | none => b

/-- All-occurrence replacement on character lists, the semantics of the
Python str.replace with non-overlapping left-to-right occurrences. The
first argument is fuel that makes the recursion structural; each step
consumes at least one character, so fuel equal to the length of the input
never runs out. -/
def replaceAllAux (pat repl : List Char) : Nat → List Char → List Char
  | _, [] => []
  | 0, s => s
  | fuel + 1, c :: rest =>
    if pat ≠ [] ∧ pat.isPrefixOf (c :: rest) then
      repl ++ replaceAllAux pat repl fuel (List.drop pat.length (c :: rest))
    else
      c :: replaceAllAux pat repl fuel rest

/-- All-occurrence replacement, started with enough fuel. -/
def replaceAll (pat repl s : List Char) : List Char :=
  replaceAllAux pat repl s.length s

/-- String form of replaceAll. -/
def strReplace (s pat repl : String) : String :=
  String.mk (replaceAll pat.toList repl.toList s.toList)

/-- Embedding of CMDNLPParser._substitute_groups (src/cmd_nlp.py lines
610-617): for each group index from one to the number of groups, replace the
positional placeholder (the index in braces) by the captured group. The
containment test of the source before replacing is dropped because replacing
an absent placeholder is the identity. -/
def substituteGroups (template : String) (m : List String) : String :=
  (List.range m.length).foldl
    (fun result j =>
      strReplace result ("\x7b" ++ toString (j + 1) ++ "\x7d") (m.getD j ""))
    template

/-- The generator produced by make_generator inside
_load_custom_patterns. -/
def customGenerator (template : String) : Generator :=
  fun m => GenResult.ok (substituteGroups template m)

/-- Embedding of the per-entry body of CMDNLPParser._load_custom_patterns
(src/cmd_nlp.py lines 570-598): the primary template is the cmd_command key
or else the command key, the PowerShell template is the ps_command key or
else the primary template; an entry without a regex or without a truthy
primary template is skipped (none); defaults fill description, safety flag
and category. -/
def loadCustomEntry (e : CustomEntry) : Option CommandPattern :=
  let cmdTemplate := pyOrStr e.cmd_command e.command
  let psTemplate := pyOrStr e.ps_command cmdTemplate
  match e.pattern, cmdTemplate with
  | some re, some ct =>
    if ct = "" then none
    else some
      { regex := re
        generators := bothShells (customGenerator ct) (customGenerator (psTemplate.getD ct))
        description := e.description.getD "Custom pattern"
        safe := e.safe.getD true
        category := e.category.getD "custom" }
  | _, _ => none

/-- The configuration entry of the round-trip check: regex "greet (.+)",
command template with the positional placeholder of group one, no PowerShell
template. -/
def greetEntry : CustomEntry :=
  { pattern := some (Re.seq (Re.lit "greet ") (Re.grp Re.dotplus))
    command := some "echo hi \x7b1\x7d"
    cmd_command := none
    ps_command := none
    description := none
    safe := some true
    category := none }

/-- The usability test applied to one rule during the scan of parse: a rule
is passed over when its regex does not match or its generator yields no
usable command for the requested shell. -/
def ruleUnusable (sh : Shell) (text : String) (p : CommandPattern) : Bool :=
  match reMatch p.regex text with
  | none => true
  | some m => (p.get_command sh m).isNone

/-- A test rule whose regex matches the input ls but whose generators always
raise, exercising the skip-and-continue branch of the scan. -/
def failPattern : CommandPattern where
  regex := Re.lit "ls"
  generators := bothShells (fun _ => GenResult.exn) (fun _ => GenResult.exn)
  description := "raising generator"
  safe := true
  category := "test"

/-- get_command never yields the empty string: the falsy check in the source
maps an empty generator result to none. -/
theorem get_command_ne_some_empty (p : CommandPattern) (sh : Shell) (m : List String) :
    p.get_command sh m ≠ some "" := by
  unfold CommandPattern.get_command
  cases hg : p.generators sh with
  | none => simp
  | some g =>
    cases hr : g m with
    | exn => simp [hr]
    | ok s =>
      by_cases hs : s = "" <;> simp [hr, hs]

/-- A rule whose regex does not match the stripped input is passed over by
the scan of parse. -/
theorem parseAux_skip_nomatch (sh : Shell) (t : String) (p : CommandPattern)
    (ps : List CommandPattern) (hm : reMatch p.regex t = none) :
    parseAux sh t (p :: ps) = parseAux sh t ps := by
  simp [parseAux, hm]

/-- A rule whose regex matches but whose generator yields no usable command
is passed over by the scan of parse. -/
theorem parseAux_skip_gen (sh : Shell) (t : String) (p : CommandPattern)
    (ps : List CommandPattern) (m : List String) (hm : reMatch p.regex t = some m)
    (hg : p.get_command sh m = none) :
    parseAux sh t (p :: ps) = parseAux sh t ps := by
  simp [parseAux, hm, hg]

/-- A rule whose regex matches and whose generator yields a command stops
the scan of parse with that command. -/
theorem parseAux_hit (sh : Shell) (t : String) (p : CommandPattern)
    (ps : List CommandPattern) (m : List String) (c : String)
    (hm : reMatch p.regex t = some m) (hg : p.get_command sh m = some c) :
    parseAux sh t (p :: ps) = some (c, p) := by
  simp [parseAux, hm, hg]

/-- If every rule of the table is unusable on the stripped input, the scan
of parse comes back empty. -/
theorem parseAux_none_of_unusable (sh : Shell) (t : String) (ps : List CommandPattern)
    (h : ∀ p ∈ ps, ruleUnusable sh t p = true) : parseAux sh t ps = none := by
  induction ps with
  | nil => rfl
  | cons p ps ih =>
    have hp := h p (List.mem_cons_self p ps)
    have hrest : ∀ q ∈ ps, ruleUnusable sh t q = true :=
      fun q hq => h q (List.mem_cons_of_mem p hq)
    unfold ruleUnusable at hp
    cases hm : reMatch p.regex t with
    | none => rw [parseAux_skip_nomatch sh t p ps hm]; exact ih hrest
    | some m =>
      rw [hm] at hp
      simp at hp
      rw [parseAux_skip_gen sh t p ps m hm hp]
      exact ih hrest

/-- A successful scan of parse only returns commands produced by
get_command, hence never the empty string. -/
theorem parseAux_ne_empty (sh : Shell) (t : String) (ps : List CommandPattern)
    (c : String) (p : CommandPattern) (h : parseAux sh t ps = some (c, p)) : c ≠ "" := by
  induction ps with
  | nil => simp [parseAux] at h
  | cons q qs ih =>
    unfold parseAux at h
    cases hm : reMatch q.regex t with
    | none => rw [hm] at h; exact ih h
    | some m =>
      rw [hm] at h
      simp only [Option.some.injEq] at h
      cases hg : q.get_command sh m with
      | none => rw [hg] at h; exact ih h
      | some c2 =>
        rw [hg] at h
        simp at h
        intro hempty
        rw [h.1, hempty] at hg
        exact get_command_ne_some_empty q sh m hg

/-- Claim C1: the claim says that every terminal state of the execution
policy (Rejected, DryRun, Executed, Failed) appends exactly one history
entry. The code agrees on the Rejected and DryRun branches (first two
conjuncts, one entry, executed false), but its real-execution branch never
calls log_command, so the Executed and the Failed outcomes append no entry
at all (last two conjuncts), contradicting the claim and the message of the
source that the command was logged. -/
theorem execute_terminal_logging :
    execute builtinPatterns Shell.cmd false "delete file x" false "n" (RunResult.completed 0) =
      (false,
        [{ input := "delete file x", command := "del \"x\"", shell := Shell.cmd,
           pattern_description := "Delete file", category := "files", safe := false,
           executed := false }]) ∧
    execute builtinPatterns Shell.cmd true "list files" false "y" (RunResult.completed 0) =
      (true,
        [{ input := "list files", command := "dir", shell := Shell.cmd,
           pattern_description := "List files", category := "files", safe := true,
           executed := false }]) ∧
    execute builtinPatterns Shell.cmd false "list files" false "y" (RunResult.completed 0) =
      (true, []) ∧
    execute builtinPatterns Shell.cmd false "list files" false "y" (RunResult.completed 1) =
      (false, []) :=
  ⟨rfl, rfl, rfl, rfl⟩

/-- Claim C2: a matched rule whose generator raises or returns an empty
result for the requested shell is treated as a non-match and the scan
continues (first conjunct); a rule that matches and generates stops the scan
with its command (second conjunct); and when no rule yields a usable
command, parse returns the empty result (third conjunct). -/
theorem parse_skips_failed_generators :
    (∀ (sh : Shell) (t : String) (p : CommandPattern) (ps : List CommandPattern)
      (m : List String),
      reMatch p.regex (pyStrip t) = some m → p.get_command sh m = none →
      parse (p :: ps) sh t = parse ps sh t) ∧
    (∀ (sh : Shell) (t : String) (p : CommandPattern) (ps : List CommandPattern)
      (m : List String) (c : String),
      reMatch p.regex (pyStrip t) = some m → p.get_command sh m = some c →
      parse (p :: ps) sh t = some (c, p)) ∧
    (∀ (sh : Shell) (t : String) (ps : List CommandPattern),
      (∀ p ∈ ps, ruleUnusable sh (pyStrip t) p = true) → parse ps sh t = none) := by
  refine ⟨?_, ?_, ?_⟩
  · intro sh t p ps m hm hg
    exact parseAux_skip_gen sh (pyStrip t) p ps m hm hg
  · intro sh t p ps m c hm hg
    exact parseAux_hit sh (pyStrip t) p ps m c hm hg
  · intro sh t ps h
    exact parseAux_none_of_unusable sh (pyStrip t) ps h

/-- Witness for claim C2: a rule matching the input ls whose generators
always raise is skipped, so the scan over just that rule equals the scan
over the empty table. -/
theorem parse_skips_failed_generators_witness :
    parse [failPattern] Shell.cmd "ls" = parse [] Shell.cmd "ls" :=
  parse_skips_failed_generators.1 Shell.cmd "ls" failPattern [] [] rfl rfl

/-- Claim C3: on the input about listing files sorted by size, parse selects
the sort-qualified rule for both shell targets, and that rule is a different
rule from the bare listing rule, which therefore is never selected. -/
theorem sorted_listing_before_bare_listing :
    parse builtinPatterns Shell.cmd "list files sorted by size" =
      some ("dir /O-S", listFilesSortedPattern) ∧
    parse builtinPatterns Shell.powershell "list files sorted by size" =
      some ("Get-ChildItem | Sort-Object Length -Descending", listFilesSortedPattern) ∧
    listFilesSortedPattern.description = "List files sorted" ∧
    listFilesPattern.description = "List files" ∧
    listFilesSortedPattern ≠ listFilesPattern :=
  ⟨rfl, rfl, rfl, rfl,
    fun h => absurd (congrArg CommandPattern.description h) (by decide)⟩

/-- Claim C4: the input lsx matches no rule of the table, in particular not
the fully anchored ls alias, while the exact input ls does match the alias
and parse resolves it; a general rule such as the go-to rule has no end
anchor, so extending its input does not break the match, in contrast with
the alias. -/
theorem alias_rules_fully_anchored :
    (builtinPatterns.all fun p => (reMatch p.regex "lsx").isNone) = true ∧
    reMatch lsAliasPattern.regex "lsx" = none ∧
    reMatch lsAliasPattern.regex "ls" = some [] ∧
    parse builtinPatterns Shell.cmd "ls" = some ("dir", lsAliasPattern) ∧
    reMatch goToPattern.regex "go to downloads" = some ["downloads"] ∧
    reMatch goToPattern.regex "go to downloads and more" = some ["downloads and more"] :=
  ⟨rfl, rfl, rfl, rfl, rfl, rfl⟩

/-- Claim C5: any input that strips to the empty string matches no rule, the
unrecognized input xyz123 matches no rule, and execute writes no history
entry for such inputs. -/
theorem no_match_on_empty_or_unrecognized :
    (∀ t : String, pyStrip t = "" →
      parse builtinPatterns Shell.cmd t = none ∧
      parse builtinPatterns Shell.powershell t = none) ∧
    parse builtinPatterns Shell.cmd "xyz123" = none ∧
    parse builtinPatterns Shell.powershell "xyz123" = none ∧
    execute builtinPatterns Shell.cmd false "" false "y" (RunResult.completed 0) =
      (false, []) ∧
    execute builtinPatterns Shell.cmd false "   " false "y" (RunResult.completed 0) =
      (false, []) ∧
    execute builtinPatterns Shell.cmd false "xyz123" false "y" (RunResult.completed 0) =
      (false, []) := by
  refine ⟨?_, rfl, rfl, rfl, rfl, rfl⟩
  intro t ht
  constructor
  · show parseAux Shell.cmd (pyStrip t) builtinPatterns = none
    rw [ht]
    rfl
  · show parseAux Shell.powershell (pyStrip t) builtinPatterns = none
    rw [ht]
    rfl

/-- Witness for claim C5: a whitespace-only input strips to the empty string
and parse returns the empty result on it. -/
theorem no_match_on_empty_or_unrecognized_witness :
    parse builtinPatterns Shell.cmd "  " = none :=
  (no_match_on_empty_or_unrecognized.1 "  " rfl).1

/-- Claim C6: exactly the delete-file, delete-folder, move, kill and rm
alias rules of the built-in table carry the destructive flag; every other
built-in rule is safe. -/
theorem destructive_rules_safety_flags :
    ((builtinPatterns.filter fun p => !p.safe).map fun p => p.description) =
      ["Delete file", "Delete directory", "Move file", "Kill process",
       "Remove file (alias)"] ∧
    (builtinPatterns.all fun p =>
      p.safe == !(["Delete file", "Delete directory", "Move file", "Kill process",
        "Remove file (alias)"].contains p.description)) = true :=
  ⟨rfl, rfl⟩

/-- Claim C7: the custom entry with regex greet followed by a captured group
and command template echo hi with the positional placeholder of group one,
once loaded, turns the input greet world into the command echo hi world for
both shells, the PowerShell template having defaulted to the primary
template because the entry has no ps_command. -/
theorem custom_pattern_roundtrip :
    ((loadCustomEntry greetEntry).bind fun p =>
      (parse [p] Shell.cmd "greet world").map Prod.fst) = some "echo hi world" ∧
    ((loadCustomEntry greetEntry).bind fun p =>
      (parse [p] Shell.powershell "greet world").map Prod.fst) = some "echo hi world" ∧
    greetEntry.ps_command = none :=
  ⟨rfl, rfl, rfl⟩

/-- Claim C8: a missing shell executable (file-not-found from the runner) is
reported by run_command as success, the soft-success branch, while a shell
that ran and exited non-zero is reported as failure. -/
theorem run_command_soft_success_asymmetry :
    run_command RunResult.fileNotFound = true ∧
    ∀ code : Int, code ≠ 0 → run_command (RunResult.completed code) = false := by
  constructor
  · rfl
  · intro code hc
    simpa [run_command, beq_eq_false_iff_ne] using hc

/-- Witness for claim C8: exit code one is reported as failure. -/
theorem run_command_soft_success_asymmetry_witness :
    run_command (RunResult.completed 1) = false :=
  run_command_soft_success_asymmetry.2 1 (by decide)

/-- Claim C9: parse_all on the go-to input returns a command for both shell
dialects, both paired with the same single rule, and the scan stops at that
first matching rule, so appending further rules to the table cannot change
the result. -/
theorem parse_all_single_scan :
    parse_all builtinPatterns "go to downloads" Shell.cmd =
      some ("cd Downloads", goToPattern) ∧
    parse_all builtinPatterns "go to downloads" Shell.powershell =
      some ("Set-Location -Path \x27downloads\x27", goToPattern) ∧
    ∀ more : List CommandPattern,
      parse_all (builtinPatterns ++ more) "go to downloads" =
        parse_all builtinPatterns "go to downloads" :=
  ⟨rfl, rfl, fun _ => rfl⟩

/-- Claim C10: parse either returns nothing or a command produced by
get_command, and get_command never yields the empty string, so a returned
command is never empty. -/
theorem parse_command_never_empty :
    (∀ (ps : List CommandPattern) (sh : Shell) (t : String) (c : String)
      (p : CommandPattern), parse ps sh t = some (c, p) → c ≠ "") ∧
    (∀ (p : CommandPattern) (sh : Shell) (m : List String),
      p.get_command sh m ≠ some "") := by
  constructor
  · intro ps sh t c p h
    exact parseAux_ne_empty sh (pyStrip t) ps c p h
  · exact get_command_ne_some_empty

/-- Witness for claim C10: the command returned for the ls alias is the
non-empty string dir. -/
theorem parse_command_never_empty_witness : ("dir" : String) ≠ "" :=
  parse_command_never_empty.1 [lsAliasPattern] Shell.cmd "ls" "dir" lsAliasPattern rfl



